import Mathlib

/-!
Verification of the VanityCert backend proxy reference implementation
(examples/backend-proxy/flask_app.py) against its specification.

The Python program is shallowly embedded: every handler becomes a pure Lean
function over explicit inputs (inbound request data, the upstream HTTP
collaborator as an oracle, the environment, the rate-limit cache), and every
Python exception path becomes an explicit `Except` value.  Machine words in
SHA-256 are natural numbers reduced modulo 2^32.  Python byte strings are
lists of naturals below 256, and Python `time()` values are integers.
-/

set_option maxRecDepth 8000

namespace VanityCert

/-! ## JSON values

Python values flowing through the handlers (parsed request bodies, `jsonify`
arguments) are JSON-shaped: `Json.null` is Python `None`, `Json.obj` is a
Python dict with string keys in insertion order. -/

inductive Json where
  | null : Json
  | bool : Bool → Json
  | num : Int → Json
  | str : String → Json
  | arr : List Json → Json
  | obj : List (String × Json) → Json

/-- The classes of Python exception that the handlers distinguish:
`requests.exceptions.RequestException` is caught separately in the proxy;
everything else falls to the generic `except Exception` clause. -/
inductive PyError where
  | requestException : String → PyError
  | typeError : String → PyError
  | attributeError : String → PyError
  | otherError : String → PyError
deriving DecidableEq, Repr

/-- A Flask response as produced by `jsonify(body), status`. -/
structure HttpResponse where
  status : Nat
  body : Json

/-- Python `d.get(k)` on a value `d`: returns the mapped value (or `None` when
the key is absent) when `d` is a dict, and raises `AttributeError` otherwise
(e.g. `None.get`, `5 .get`). -/
def dictGet : Json → String → Except PyError Json
  | .obj fields, k =>
      match fields.lookup k with
      | some v => .ok v
      | none => .ok .null
  | _, _ => .error (.attributeError "object has no attribute get")

/-- Python `j == s` for a string literal `s`: true exactly when `j` is that
string. -/
def isStr (j : Json) (s : String) : Bool :=
  match j with
  | .str t => t = s
  | _ => false

/-- Python truthiness test `if j:` restricted to `None` (the only case the
handlers rely on for JSON values). -/
def isNull (j : Json) : Bool :=
  match j with
  | .null => true
  | _ => false

/-! ## SHA-256 and HMAC-SHA256

Model of `hashlib.sha256` and `hmac.new(key, msg, hashlib.sha256)` used by the
webhook handler.  Bytes are naturals < 256; 32-bit words are naturals reduced
mod 2^32; recursion over chunks is fueled by the (exactly sufficient) chunk
count so that every definition reduces in the kernel. -/

def w32 (n : Nat) : Nat := n % 4294967296

def rotr32 (x n : Nat) : Nat := w32 ((x >>> n) ||| (x <<< (32 - n)))

def shaSsig0 (x : Nat) : Nat := (rotr32 x 7) ^^^ (rotr32 x 18) ^^^ (x >>> 3)

def shaSsig1 (x : Nat) : Nat := (rotr32 x 17) ^^^ (rotr32 x 19) ^^^ (x >>> 10)

def shaBsig0 (x : Nat) : Nat := (rotr32 x 2) ^^^ (rotr32 x 13) ^^^ (rotr32 x 22)

def shaBsig1 (x : Nat) : Nat := (rotr32 x 6) ^^^ (rotr32 x 11) ^^^ (rotr32 x 25)

/-- The 64 round constants of FIPS 180-4 section 4.2.2, in decimal. -/
def shaK : List Nat :=
  [1116352408, 1899447441, 3049323471, 3921009573, 961987163, 1508970993,
   2453635748, 2870763221, 3624381080, 310598401, 607225278, 1426881987,
   1925078388, 2162078206, 2614888103, 3248222580, 3835390401, 4022224774,
   264347078, 604807628, 770255983, 1249150122, 1555081692, 1996064986,
   2554220882, 2821834349, 2952996808, 3210313671, 3336571891, 3584528711,
   113926993, 338241895, 666307205, 773529912, 1294757372, 1396182291,
   1695183700, 1986661051, 2177026350, 2456956037, 2730485921, 2820302411,
   3259730800, 3345764771, 3516065817, 3600352804, 4094571909, 275423344,
   430227734, 506948616, 659060556, 883997877, 958139571, 1322822218,
   1537002063, 1747873779, 1955562222, 2024104815, 2227730452, 2361852424,
   2428436474, 2756734187, 3204031479, 3329325298]

/-- The initial hash state of FIPS 180-4 section 5.3.3, in decimal. -/
def shaH0 : List Nat :=
  [1779033703, 3144134277, 1013904242, 2773480762, 1359893119, 2600822924,
   528734635, 1541459225]

/-- Big-endian bytes of `n`, `k` bytes wide. -/
def beBytes : Nat → Nat → List Nat
  | 0, _ => []
  | k + 1, n => beBytes k (n / 256) ++ [n % 256]

/-- SHA-256 padding: append 0x80, zeros until the length is 56 mod 64, then
the 64-bit big-endian bit length.  The zero count `(119 - L % 64) % 64` is
`-(L + 9) mod 64` computed without truncated subtraction (`L % 64 ≤ 63 < 119`). -/
def sha256pad (msg : List Nat) : List Nat :=
  let L := msg.length
  msg ++ [0x80] ++ List.replicate ((119 - L % 64) % 64) 0 ++ beBytes 8 (8 * L)

/-- Group bytes into big-endian 32-bit words (length assumed divisible by 4). -/
def toWords : List Nat → List Nat
  | b0 :: b1 :: b2 :: b3 :: rest => (((b0 * 256 + b1) * 256 + b2) * 256 + b3) :: toWords rest
  | _ => []

def iterate (f : α → α) : Nat → α → α
  | 0, a => a
  | n + 1, a => iterate f n (f a)

/-- One step of message-schedule extension: append the word
`w[i-16] + σ0(w[i-15]) + w[i-7] + σ1(w[i-2])`. -/
def extendStep (ws : List Nat) : List Nat :=
  let n := ws.length
  ws ++ [w32 (ws.getD (n - 16) 0 + shaSsig0 (ws.getD (n - 15) 0) +
              ws.getD (n - 7) 0 + shaSsig1 (ws.getD (n - 2) 0))]

/-- Extend the 16 chunk words to the 64-entry message schedule. -/
def msgSchedule (ws : List Nat) : List Nat := iterate extendStep 48 ws

/-- One SHA-256 compression round on state `[a,b,c,d,e,f,g,h]`. -/
def compressRound (st : List Nat) (wk : Nat × Nat) : List Nat :=
  match st with
  | [a, b, c, d, e, f, g, h] =>
      let ch := (e &&& f) ^^^ ((e ^^^ 0xffffffff) &&& g)
      let temp1 := w32 (h + shaBsig1 e + ch + wk.2 + wk.1)
      let maj := (a &&& b) ^^^ (a &&& c) ^^^ (b &&& c)
      let temp2 := w32 (shaBsig0 a + maj)
      [w32 (temp1 + temp2), a, b, c, w32 (d + temp1), e, f, g]
  | other => other

/-- Compress one 64-byte chunk into the running hash state. -/
def compressChunk (h : List Nat) (chunk : List Nat) : List Nat :=
  let final := (List.zip (msgSchedule (toWords chunk)) shaK).foldl compressRound h
  List.zipWith (fun x y => w32 (x + y)) h final

/-- Fold the compression function over consecutive 64-byte chunks; `fuel` is
the exact number of chunks. -/
def sha256chunks : Nat → List Nat → List Nat → List Nat
  | 0, h, _ => h
  | fuel + 1, h, l => sha256chunks fuel (compressChunk h (l.take 64)) (l.drop 64)

/-- `hashlib.sha256(msg).digest()`: the 32-byte SHA-256 digest. -/
def sha256 (msg : List Nat) : List Nat :=
  let padded := sha256pad msg
  (sha256chunks (padded.length / 64) shaH0 padded).flatMap (beBytes 4)

def hexDigits : List Char := "0123456789abcdef".toList

/-- The lowercase hex digit for one nibble. -/
def hexChar (n : Nat) : Char := hexDigits.getD n '0'

/-- Lowercase hex rendering of a byte string (`.hexdigest()`). -/
def hexOfBytes (bytes : List Nat) : String :=
  String.mk (bytes.flatMap fun b => [hexChar (b / 16), hexChar (b % 16)])

/-- `hmac.new(key, msg, hashlib.sha256).digest()`. -/
def hmacSha256 (key msg : List Nat) : List Nat :=
  let k0 := if 64 < key.length then sha256 key else key
  let kPad := k0 ++ List.replicate (64 - k0.length) 0
  sha256 ((kPad.map (fun b => b ^^^ 0x5c)) ++ sha256 ((kPad.map (fun b => b ^^^ 0x36)) ++ msg))

/-- UTF-8 encoding of one character (Python `str.encode('utf-8')`). -/
def utf8Char (c : Char) : List Nat :=
  let n := c.toNat
  if n < 0x80 then [n]
  else if n < 0x800 then [0xc0 ||| (n >>> 6), 0x80 ||| (n &&& 0x3f)]
  else if n < 0x10000 then
    [0xe0 ||| (n >>> 12), 0x80 ||| ((n >>> 6) &&& 0x3f), 0x80 ||| (n &&& 0x3f)]
  else
    [0xf0 ||| (n >>> 18), 0x80 ||| ((n >>> 12) &&& 0x3f),
     0x80 ||| ((n >>> 6) &&& 0x3f), 0x80 ||| (n &&& 0x3f)]

/-- Python `s.encode('utf-8')` as a byte list. -/
def utf8 (s : String) : List Nat := s.toList.flatMap utf8Char

/-- Sanity check against the standard empty-message SHA-256 test vector. -/
example : hexOfBytes (sha256 []) =
    "e3b0c44298fc1c149afbf4c8996fb92427ae41e4649b934ca495991b7852b855" := by decide

/-- Sanity check against the standard "abc" SHA-256 test vector. -/
example : hexOfBytes (sha256 (utf8 "abc")) =
    "ba7816bf8f01cfea414140de5dae2223b00361a396177a9cb410ff61f20015ad" := by decide

/-- Sanity check at a padding boundary: a 56-byte message needs an extra
all-padding chunk (63 zero bytes). -/
example : hexOfBytes (sha256 (List.replicate 56 97)) =
    "b35439a4ac6f0948b6d6f9e3c6af0f5f590ce20f1bde7090ef7970686ec6738a" := by decide

/-- Sanity check at the other boundary: a 64-byte (full-chunk) message. -/
example : hexOfBytes (sha256 ((List.range 64).map fun i => i % 251)) =
    "fdeab9acf3710362bd2658cdc9a29e8f9c757fcf9811603a8c447cd1d9151108" := by decide

/-- Sanity check of HMAC-SHA256 against a published test vector. -/
example : hexOfBytes (hmacSha256 (utf8 "key") (utf8 "The quick brown fox jumps over the lazy dog")) =
    "f7bc83f430538424b13298e6aa6fb143ef4d59a14946175997479dbc2d1a3cd8" := by decide

/-! ## Configuration loader

Module-initialization code of flask_app.py: the four `os.environ.get` reads
and the fail-fast check `if not VANITYCERT_API_KEY_ID or not
VANITYCERT_API_KEY: exit(1)`.  The environment is a partial map from variable
names to strings; `exit(1)` is modelled as `.error 1` (the process exit
code). -/

def defaultApiUrl : String := "https://app.vanitycert.com/api"

structure Config where
  apiUrl : String
  apiKeyId : String
  apiKey : String
  webhookSecret : Option String
deriving DecidableEq, Repr

/-- Python truthiness of an `os.environ.get` result: `None` and the empty
string are falsy, every other string is truthy. -/
def envTruthy : Option String → Bool
  | none => false
  | some s => s != ""

/-- Modelled module initialization: read `VANITYCERT_API_URL` (with default),
`VANITYCERT_API_KEY_ID`, `VANITYCERT_API_KEY`, `VANITYCERT_WEBHOOK_SECRET`,
and `exit(1)` when either required credential is missing or empty. -/
def loadConfig (env : String → Option String) : Except Nat Config :=
  let keyId := env "VANITYCERT_API_KEY_ID"
  let key := env "VANITYCERT_API_KEY"
  if !envTruthy keyId || !envTruthy key then .error 1
  else .ok { apiUrl := (env "VANITYCERT_API_URL").getD defaultApiUrl
             apiKeyId := keyId.getD ""
             apiKey := key.getD ""
             webhookSecret := env "VANITYCERT_WEBHOOK_SECRET" }

/-! ## Proxy forwarder

`vanitycert_proxy(api_path)`.  The inbound Flask request contributes its
method, its `is_json` flag and the outcome of `request.get_json()`; the
upstream collaborator (`requests.request`) is an oracle from the outbound
request to either a response or a raised
`requests.exceptions.RequestException`.  The handler returns the Flask
response together with the list of upstream requests it issued. -/

inductive Method where
  | GET : Method
  | POST : Method
  | PUT : Method
  | DELETE : Method
deriving DecidableEq, Repr

structure InboundRequest where
  method : Method
  is_json : Bool
  /-- Outcome of `request.get_json()`: the parsed value, or the exception it
  raises (malformed body, wrong content type). `Json.null` is Python `None`,
  i.e. a body consisting of the JSON literal `null`. -/
  getJson : Except PyError Json

structure OutboundRequest where
  method : Method
  url : String
  headers : List (String × String)
  /-- The `json=` keyword argument of `requests.request`; `none` is Python
  `None`, which makes `requests` send no request body at all. -/
  jsonArg : Option Json
  timeout : Nat

/-- Outcome of `requests.request(...)`: a response (whose `.json()` may in
turn raise), or a raised `requests.exceptions.RequestException`. -/
inductive UpstreamResult where
  | response : Nat → Except PyError Json → UpstreamResult
  | raised : String → UpstreamResult

/-- A Python value used as the `json=` argument: `None` means "no body". -/
def pyToJsonArg (j : Json) : Option Json := if isNull j then none else some j

/-- The outbound request the proxy builds: URL `f"{VANITYCERT_API_URL}/{api_path}"`,
same method, the four fixed headers, `timeout=30`. -/
def forwardedRequest (cfg : Config) (api_path : String) (method : Method)
    (jsonArg : Option Json) : OutboundRequest :=
  { method := method
    url := cfg.apiUrl ++ "/" ++ api_path
    headers := [("X-API-KEY-ID", cfg.apiKeyId), ("X-API-KEY", cfg.apiKey),
                ("Content-Type", "application/json"), ("Accept", "application/json")]
    jsonArg := jsonArg
    timeout := 30 }

/-- Body of the `try:` block of `vanitycert_proxy`, returning the response or
the raised exception, paired with the upstream requests issued. -/
def vanitycert_proxy_try (cfg : Config) (upstream : OutboundRequest → UpstreamResult)
    (api_path : String) (req : InboundRequest) :
    Except PyError HttpResponse × List OutboundRequest :=
  match (if req.is_json then req.getJson else .ok .null) with
  | .error e => (.error e, [])
  | .ok j =>
      let out := forwardedRequest cfg api_path req.method (pyToJsonArg j)
      match upstream out with
      | .raised msg => (.error (.requestException msg), [out])
      | .response status jsonResult =>
          match jsonResult with
          | .error e => (.error e, [out])
          | .ok body => (.ok ⟨status, body⟩, [out])

def proxyErrorBody : Json :=
  .obj [("error", .obj [("code", .str "proxy_error"),
                        ("message", .str "Failed to connect to VanityCert API")])]

def internalErrorBody : Json :=
  .obj [("error", .obj [("code", .str "internal_error"),
                        ("message", .str "Internal server error")])]

/-- The proxy handler: the `try:` body with its two `except` clauses —
`requests.exceptions.RequestException` yields the fixed `proxy_error`
response, any other exception the fixed `internal_error` response. -/
def vanitycert_proxy (cfg : Config) (upstream : OutboundRequest → UpstreamResult)
    (api_path : String) (req : InboundRequest) : HttpResponse × List OutboundRequest :=
  match vanitycert_proxy_try cfg upstream api_path req with
  | (.ok resp, tr) => (resp, tr)
  | (.error (.requestException _), tr) => (⟨500, proxyErrorBody⟩, tr)
  | (.error _, tr) => (⟨500, internalErrorBody⟩, tr)

/-! ## Webhook receiver

`vanitycert_webhook()` and `process_webhook(event)`.  The inbound request
contributes the raw body bytes (`request.get_data()`), the optional signature
header, and the outcome of `request.get_json()`.  The handler result also
records the dispatch performed by `process_webhook`, if any. -/

structure WebhookRequest where
  /-- `request.get_data()`: the raw body bytes. -/
  rawBody : List Nat
  /-- `request.headers.get('X-VanityCert-Signature')`. -/
  signatureHeader : Option String
  /-- Outcome of `request.get_json()` on the raw body. -/
  getJson : Except PyError Json

/-- CPython `str` is ASCII-only when every character is below 128. -/
def asciiOnly (s : String) : Bool := s.toList.all fun c => c.toNat < 128

/-- `hmac.compare_digest(a, b)` where `a` is the header value (possibly
`None`) and `b` the computed ASCII signature: raises `TypeError` when `a` is
`None` or when either string contains non-ASCII characters, and otherwise
decides string equality (in constant time, which a value-level model does not
track). -/
def compare_digest : Option String → String → Except PyError Bool
  | none, _ => .error (.typeError "unsupported operand types")
  | some a, b =>
      if asciiOnly a && asciiOnly b then .ok (a == b)
      else .error (.typeError "comparing strings with non-ASCII characters is not supported")

/-- `'sha256=' + hmac.new(secret.encode('utf-8'), payload, hashlib.sha256).hexdigest()`. -/
def expected_signature (secret : String) (payload : List Nat) : String :=
  "sha256=" ++ hexOfBytes (hmacSha256 (utf8 secret) payload)

/-- The dispatch performed by `process_webhook`: which logging/side-effect
branch ran, with the values it used. -/
inductive LogAction where
  | issued : Json → LogAction
  | validationFailed : Json → Json → LogAction
  | renewalFailed : Json → Json → LogAction
  | unhandled : Json → LogAction

/-- `process_webhook(event)`: read `event.get('event')` and
`event.get('domain_url')`, then branch on the event tag; unknown tags fall
through to the logging-only default branch. -/
def process_webhook (event : Json) : Except PyError LogAction :=
  match dictGet event "event" with
  | .error e => .error e
  | .ok event_type =>
      match dictGet event "domain_url" with
      | .error e => .error e
      | .ok domain_url =>
          if isStr event_type "certificate.issued" then
            .ok (.issued domain_url)
          else if isStr event_type "certificate.validation_failed" then
            match dictGet event "reason" with
            | .error e => .error e
            | .ok reason => .ok (.validationFailed domain_url reason)
          else if isStr event_type "certificate.renewal_failed" then
            match dictGet event "reason" with
            | .error e => .error e
            | .ok reason => .ok (.renewalFailed domain_url reason)
          else
            .ok (.unhandled event_type)

def statusOkBody : Json := .obj [("status", .str "ok")]

/-- The parse/log/dispatch tail of the webhook handler, after signature
verification passed or was skipped: `event = request.get_json()`, the
`logger.info` f-string (which evaluates `event.get('event')` and
`event.get('domain_url')`), `process_webhook(event)`, then the 200
acknowledgment. -/
def webhookBody (req : WebhookRequest) : Except PyError (HttpResponse × LogAction) :=
  match req.getJson with
  | .error e => .error e
  | .ok event =>
      match dictGet event "event" with
      | .error e => .error e
      | .ok _ =>
          match dictGet event "domain_url" with
          | .error e => .error e
          | .ok _ =>
              match process_webhook event with
              | .error e => .error e
              | .ok act => .ok (⟨200, statusOkBody⟩, act)

def invalidSignatureBody : Json := .obj [("error", .str "Invalid signature")]

def webhookFailBody : Json := .obj [("error", .str "Webhook processing failed")]

/-- Body of the `try:` block of `vanitycert_webhook`: conditional signature
verification (`if VANITYCERT_WEBHOOK_SECRET:` — Python truthiness), then the
parse/dispatch tail.  The second component records the dispatch, `none` when
`process_webhook` was never reached. -/
def vanitycert_webhook_try (secret : Option String) (req : WebhookRequest) :
    Except PyError (HttpResponse × Option LogAction) :=
  if envTruthy secret then
    match compare_digest req.signatureHeader (expected_signature (secret.getD "") req.rawBody) with
    | .error e => .error e
    | .ok false => .ok (⟨401, invalidSignatureBody⟩, none)
    | .ok true =>
        match webhookBody req with
        | .error e => .error e
        | .ok (resp, act) => .ok (resp, some act)
  else
    match webhookBody req with
    | .error e => .error e
    | .ok (resp, act) => .ok (resp, some act)

/-- The webhook handler: the `try:` body with its catch-all `except Exception`
clause returning the fixed 500 response. -/
def vanitycert_webhook (secret : Option String) (req : WebhookRequest) :
    HttpResponse × Option LogAction :=
  match vanitycert_webhook_try secret req with
  | .ok r => r
  | .error _ => (⟨500, webhookFailBody⟩, none)

/-! ## Rate limiter

`check_rate_limit(user_id, limit, window)`.  `rate_limit_cache` is a dict
from key strings to timestamp lists, modelled as an insertion-ordered
association list; `time()` is passed explicitly as `now`.  The boolean result
is `false` when the function raises `Exception('Rate limit exceeded')` and
`true` when the call is allowed. -/

abbrev RateCache := List (String × List Int)

def lookupKey : RateCache → String → Option (List Int)
  | [], _ => none
  | (k, v) :: rest, key => if k = key then some v else lookupKey rest key

def setKey : RateCache → String → List Int → RateCache
  | [], key, v => [(key, v)]
  | (k, w) :: rest, key, v =>
      if k = key then (key, v) :: rest else (k, w) :: setKey rest key v

/-- `check_rate_limit`: ensure the key exists, prune timestamps older than
the window (`now - req_time < window` keeps an entry), raise when the pruned
count already meets the limit, otherwise append `now`. -/
def check_rate_limit (user_id : String) (limit : Nat) (window : Int) (now : Int)
    (cache : RateCache) : RateCache × Bool :=
  let key := "ratelimit:" ++ user_id
  let cache1 :=
    match lookupKey cache key with
    | some _ => cache
    | none => setKey cache key []
  let pruned := ((lookupKey cache1 key).getD []).filter fun t => now - t < window
  let cache2 := setKey cache1 key pruned
  if limit ≤ pruned.length then (cache2, false)
  else (setKey cache2 key (pruned ++ [now]), true)

/-! ## Concrete inputs

Closed values used to exercise the handlers at concrete inputs. -/

namespace Fix

def cfg : Config :=
  { apiUrl := defaultApiUrl
    apiKeyId := "vc_pk_abc123def456"
    apiKey := "sk_secret"
    webhookSecret := none }

/-- An upstream that answers every request with 201 and a JSON body. -/
def upstreamOk : OutboundRequest → UpstreamResult :=
  fun _ => .response 201 (.ok (.obj [("id", .str "dom_1"), ("status", .str "pending")]))

/-- An upstream that raises `requests.exceptions.ConnectionError`. -/
def upstreamDown : OutboundRequest → UpstreamResult :=
  fun _ => .raised "ConnectionError: connection refused"

def getReq : InboundRequest :=
  { method := .GET
    is_json := false
    getJson := .error (.otherError "415 Unsupported Media Type") }

def postReq : InboundRequest :=
  { method := .POST
    is_json := true
    getJson := .ok (.obj [("url", .str "shop.example.com")]) }

/-- A POST declaring JSON whose body is the four bytes `null`. -/
def nullBodyReq : InboundRequest :=
  { method := .POST
    is_json := true
    getJson := .ok .null }

/-- A POST declaring JSON whose body does not parse: `request.get_json()`
raises `werkzeug.exceptions.BadRequest`. -/
def badBodyReq : InboundRequest :=
  { method := .POST
    is_json := true
    getJson := .error (.otherError "400 Bad Request: malformed JSON") }

def envOk : String → Option String := fun k =>
  if k = "VANITYCERT_API_KEY_ID" then some "vc_pk_abc123def456"
  else if k = "VANITYCERT_API_KEY" then some "sk_secret"
  else none

/-- An environment whose key secret is set to the empty string. -/
def envEmptyKey : String → Option String := fun k =>
  if k = "VANITYCERT_API_KEY_ID" then some "vc_pk_abc123def456"
  else if k = "VANITYCERT_API_KEY" then some ""
  else none

def whSecret : String := "whsec_123"

def whBody : String :=
  "\x7b\"event\": \"certificate.issued\", \"domain_url\": \"shop.example.com\"\x7d"

def whEvent : Json :=
  .obj [("event", .str "certificate.issued"), ("domain_url", .str "shop.example.com")]

def whReqSigned : WebhookRequest :=
  { rawBody := utf8 whBody
    signatureHeader := some (expected_signature whSecret (utf8 whBody))
    getJson := .ok whEvent }

def whReqNoHeader : WebhookRequest :=
  { rawBody := utf8 whBody
    signatureHeader := none
    getJson := .ok whEvent }

/-- A signature header containing a non-ASCII character (a raw header byte
above 0x7f decodes to such a string). -/
def whReqNonAscii : WebhookRequest :=
  { rawBody := utf8 whBody
    signatureHeader := some "sha256=ÿ"
    getJson := .ok whEvent }

/-- A webhook request whose body is the well-formed JSON document `5`. -/
def whReqNum : WebhookRequest :=
  { rawBody := utf8 "5"
    signatureHeader := none
    getJson := .ok (.num 5) }

def whReqUnknown : WebhookRequest :=
  { rawBody := utf8 "\x7b\"event\": \"unknown.tag\"\x7d"
    signatureHeader := none
    getJson := .ok (.obj [("event", .str "unknown.tag")]) }

end Fix

/-! ## Association-list lemmas -/

theorem lookupKey_setKey (c : RateCache) (key k : String) (v : List Int) :
    lookupKey (setKey c key v) k = if k = key then some v else lookupKey c k := by
  induction c with
  | nil =>
      by_cases h : k = key
      · subst h; simp [setKey, lookupKey]
      · simp [setKey, lookupKey, h, Ne.symm h]
  | cons hd tl ih =>
      obtain ⟨k0, v0⟩ := hd
      by_cases h0 : k0 = key
      · subst h0
        by_cases h : k = k0
        · subst h; simp [setKey, lookupKey]
        · simp [setKey, lookupKey, h, Ne.symm h]
      · by_cases h : k0 = k
        · subst h
          simp [setKey, lookupKey, h0, Ne.symm h0]
        · simp [setKey, lookupKey, h0, h, ih]

/-- The cache value the pruning step reads, after the key-initialization
step: always present, defaulting to the empty list. -/
theorem lookupKey_after_init (cache : RateCache) (key : String) :
    lookupKey (match lookupKey cache key with
               | some _ => cache
               | none => setKey cache key []) key =
      some ((lookupKey cache key).getD []) := by
  cases h : lookupKey cache key with
  | some v => simp [h]
  | none => simp [h, lookupKey_setKey]

/-- Keys present before the initialization step stay present. -/
theorem lookupKey_after_init_isSome (cache : RateCache) (key k : String)
    (h : (lookupKey cache k).isSome) :
    (lookupKey (match lookupKey cache key with
                | some _ => cache
                | none => setKey cache key []) k).isSome := by
  cases hk : lookupKey cache key with
  | some v => simpa [hk] using h
  | none =>
      simp only [hk, lookupKey_setKey]
      by_cases hkk : k = key <;> simp [hkk, h]

theorem lookupKey_setKey_isSome (c : RateCache) (key k : String) (v : List Int)
    (h : (lookupKey c k).isSome) : (lookupKey (setKey c key v) k).isSome := by
  rw [lookupKey_setKey]
  by_cases hkk : k = key <;> simp [hkk, h]

/-- Complete description of one `check_rate_limit` call: the boolean result,
the stored list for the caller's key afterwards, and preservation of all
existing keys. -/
theorem check_rate_limit_master (user_id : String) (limit : Nat) (window now : Int)
    (cache : RateCache) :
    ((check_rate_limit user_id limit window now cache).2 =
        !decide (limit ≤ (((lookupKey cache ("ratelimit:" ++ user_id)).getD []).filter
          (fun t => now - t < window)).length))
    ∧ (lookupKey (check_rate_limit user_id limit window now cache).1 ("ratelimit:" ++ user_id) =
        some (if limit ≤ (((lookupKey cache ("ratelimit:" ++ user_id)).getD []).filter
                  (fun t => now - t < window)).length
              then ((lookupKey cache ("ratelimit:" ++ user_id)).getD []).filter
                  (fun t => now - t < window)
              else (((lookupKey cache ("ratelimit:" ++ user_id)).getD []).filter
                  (fun t => now - t < window)) ++ [now]))
    ∧ (∀ k, (lookupKey cache k).isSome →
        (lookupKey (check_rate_limit user_id limit window now cache).1 k).isSome) := by
  by_cases hl : limit ≤ (((lookupKey cache ("ratelimit:" ++ user_id)).getD []).filter
      (fun t => now - t < window)).length
  · simp only [check_rate_limit, lookupKey_after_init, Option.getD_some, hl, if_true]
    refine ⟨by simp [hl], ?_, ?_⟩
    · rw [lookupKey_setKey]; simp
    · intro k hk
      exact lookupKey_setKey_isSome _ _ _ _ (lookupKey_after_init_isSome cache _ k hk)
  · simp only [check_rate_limit, lookupKey_after_init, Option.getD_some, hl, if_false]
    refine ⟨by simp [hl], ?_, ?_⟩
    · rw [lookupKey_setKey]; simp
    · intro k hk
      exact lookupKey_setKey_isSome _ _ _ _
        (lookupKey_setKey_isSome _ _ _ _ (lookupKey_after_init_isSome cache _ k hk))

/-- C7: the rate-limiter check first drops all timestamps recorded for the
identifier that are older than the window relative to the current time, then
signals rate-limit-exceeded (result `false`) exactly when the pruned count
meets or exceeds the maximum, and otherwise records the current timestamp and
allows the call; with window 60 and limit 2, three calls within 60 time units
make the third signal rate-limit-exceeded, and a call after the window has
elapsed succeeds again. -/
theorem check_rate_limit_behavior (user_id : String) (limit : Nat) (window now : Int)
    (cache : RateCache) :
    (((check_rate_limit user_id limit window now cache).2 = false ↔
        limit ≤ (((lookupKey cache ("ratelimit:" ++ user_id)).getD []).filter
          (fun t => now - t < window)).length)
     ∧ ((check_rate_limit user_id limit window now cache).2 = false →
          lookupKey (check_rate_limit user_id limit window now cache).1 ("ratelimit:" ++ user_id)
            = some (((lookupKey cache ("ratelimit:" ++ user_id)).getD []).filter
                (fun t => now - t < window)))
     ∧ ((check_rate_limit user_id limit window now cache).2 = true →
          lookupKey (check_rate_limit user_id limit window now cache).1 ("ratelimit:" ++ user_id)
            = some ((((lookupKey cache ("ratelimit:" ++ user_id)).getD []).filter
                (fun t => now - t < window)) ++ [now])))
    ∧ ((check_rate_limit "alice" 2 60 0 []).2 = true
       ∧ (check_rate_limit "alice" 2 60 10 (check_rate_limit "alice" 2 60 0 []).1).2 = true
       ∧ (check_rate_limit "alice" 2 60 20 (check_rate_limit "alice" 2 60 10
            (check_rate_limit "alice" 2 60 0 []).1).1).2 = false
       ∧ (check_rate_limit "alice" 2 60 100 (check_rate_limit "alice" 2 60 20
            (check_rate_limit "alice" 2 60 10 (check_rate_limit "alice" 2 60 0 []).1).1).1).2
          = true) := by
  obtain ⟨h1, h2, _⟩ := check_rate_limit_master user_id limit window now cache
  set P := ((lookupKey cache ("ratelimit:" ++ user_id)).getD []).filter
    (fun t => now - t < window) with hP
  refine ⟨⟨?_, ?_, ?_⟩, by decide⟩
  · rw [h1]; by_cases hl : limit ≤ P.length <;> simp [hl]
  · intro hf
    rw [h1] at hf
    have hl : limit ≤ P.length := by simpa using hf
    rw [h2, if_pos hl]
  · intro ht
    rw [h1] at ht
    have hl : ¬ limit ≤ P.length := by simpa using ht
    rw [h2, if_neg hl]

/-- Witness for C7: a concrete denied call — limit 1, window 60, two prior
timestamps still inside the window. -/
theorem check_rate_limit_behavior_witness :
    (check_rate_limit "bob" 1 60 50 [("ratelimit:bob", [0, 49])]).2 = false :=
  (check_rate_limit_behavior "bob" 1 60 50 [("ratelimit:bob", [0, 49])]).1.1.mpr (by decide)

/-- C10: after any call for identifier `k`, every timestamp stored for `k`
lies within the window of the call's current time; after an allowing call the
stored count for `k` is at most the maximum; and keys are never evicted. -/
theorem check_rate_limit_state_invariant (user_id : String) (limit : Nat) (window now : Int)
    (cache : RateCache) (hw : 0 < window) :
    (∀ t ∈ (lookupKey (check_rate_limit user_id limit window now cache).1
        ("ratelimit:" ++ user_id)).getD [], now - t < window)
    ∧ ((check_rate_limit user_id limit window now cache).2 = true →
        ((lookupKey (check_rate_limit user_id limit window now cache).1
            ("ratelimit:" ++ user_id)).getD []).length ≤ limit)
    ∧ (∀ k, (lookupKey cache k).isSome →
        (lookupKey (check_rate_limit user_id limit window now cache).1 k).isSome) := by
  obtain ⟨h1, h2, h3⟩ := check_rate_limit_master user_id limit window now cache
  set P := ((lookupKey cache ("ratelimit:" ++ user_id)).getD []).filter
    (fun t => now - t < window) with hP
  refine ⟨?_, ?_, h3⟩
  · intro t ht
    rw [h2] at ht
    simp only [Option.getD_some] at ht
    by_cases hl : limit ≤ P.length
    · rw [if_pos hl] at ht
      rw [hP] at ht
      have hmem := List.of_mem_filter ht
      exact of_decide_eq_true hmem
    · rw [if_neg hl] at ht
      rcases List.mem_append.mp ht with h | h
      · rw [hP] at h
        have hmem := List.of_mem_filter h
        exact of_decide_eq_true hmem
      · simp only [List.mem_singleton] at h
        subst h
        simpa using hw
  · intro htrue
    rw [h1] at htrue
    have hl : ¬ limit ≤ P.length := by simpa using htrue
    rw [h2, if_neg hl]
    simp only [Option.getD_some, List.length_append, List.length_singleton]
    omega

/-- Witness for C10: a concrete allowing call whose resulting stored count is
within the limit. -/
theorem check_rate_limit_state_invariant_witness :
    ((lookupKey (check_rate_limit "carol" 2 60 30 [("ratelimit:carol", [0])]).1
        "ratelimit:carol").getD []).length ≤ 2 :=
  (check_rate_limit_state_invariant "carol" 2 60 30 [("ratelimit:carol", [0])]
    (by decide)).2.1 (by decide)

/-! ## Configuration loader -/

theorem envTruthy_eq_false (x : Option String) :
    envTruthy x = false ↔ (x = none ∨ x = some "") := by
  cases x <;> simp [envTruthy]

/-- C8: at startup, the loader fails hard (exit code 1, no configuration
produced) exactly when the key identifier or key secret setting is absent or
empty; otherwise it produces the configuration, with the upstream base URL
falling back to its default when unset. -/
theorem loadConfig_fail_fast (env : String → Option String) :
    (loadConfig env = .error 1 ↔
      (env "VANITYCERT_API_KEY_ID" = none ∨ env "VANITYCERT_API_KEY_ID" = some ""
       ∨ env "VANITYCERT_API_KEY" = none ∨ env "VANITYCERT_API_KEY" = some ""))
    ∧ (∀ cfg, loadConfig env = .ok cfg →
        cfg.apiUrl = (env "VANITYCERT_API_URL").getD defaultApiUrl
        ∧ cfg.apiKeyId = (env "VANITYCERT_API_KEY_ID").getD ""
        ∧ cfg.apiKey = (env "VANITYCERT_API_KEY").getD ""
        ∧ cfg.webhookSecret = env "VANITYCERT_WEBHOOK_SECRET")
    ∧ (env "VANITYCERT_API_URL" = none → ∀ cfg, loadConfig env = .ok cfg →
        cfg.apiUrl = defaultApiUrl) := by
  by_cases hfail :
      (!envTruthy (env "VANITYCERT_API_KEY_ID") || !envTruthy (env "VANITYCERT_API_KEY")) = true
  · have hload : loadConfig env = .error 1 := by
      simp only [loadConfig]
      rw [if_pos hfail]
    refine ⟨?_, ?_, ?_⟩
    · rw [hload]
      simp only [true_iff]
      have hfail2 : envTruthy (env "VANITYCERT_API_KEY_ID") = false
          ∨ envTruthy (env "VANITYCERT_API_KEY") = false := by
        simpa using hfail
      rcases hfail2 with h | h
      · rcases (envTruthy_eq_false _).mp h with h2 | h2 <;> tauto
      · rcases (envTruthy_eq_false _).mp h with h2 | h2 <;> tauto
    · intro cfg hcfg
      rw [hload] at hcfg
      cases hcfg
    · intro _ cfg hcfg
      rw [hload] at hcfg
      cases hcfg
  · have hA : envTruthy (env "VANITYCERT_API_KEY_ID") = true := by
      cases hx : envTruthy (env "VANITYCERT_API_KEY_ID")
      · exact absurd (by simp [hx]) hfail
      · rfl
    have hB : envTruthy (env "VANITYCERT_API_KEY") = true := by
      cases hx : envTruthy (env "VANITYCERT_API_KEY")
      · exact absurd (by simp [hx]) hfail
      · rfl
    have hok : loadConfig env =
        .ok { apiUrl := (env "VANITYCERT_API_URL").getD defaultApiUrl
              apiKeyId := (env "VANITYCERT_API_KEY_ID").getD ""
              apiKey := (env "VANITYCERT_API_KEY").getD ""
              webhookSecret := env "VANITYCERT_WEBHOOK_SECRET" } := by
      simp only [loadConfig]
      rw [if_neg hfail]
    refine ⟨?_, ?_, ?_⟩
    · rw [hok]
      constructor
      · intro h; cases h
      · intro hdisj
        exfalso
        rcases hdisj with h | h | h | h
        · rw [h] at hA; simp [envTruthy] at hA
        · rw [h] at hA; simp [envTruthy] at hA
        · rw [h] at hB; simp [envTruthy] at hB
        · rw [h] at hB; simp [envTruthy] at hB
    · intro cfg hcfg
      rw [hok] at hcfg
      injection hcfg with h
      subst h
      exact ⟨rfl, rfl, rfl, rfl⟩
    · intro hurl cfg hcfg
      rw [hok] at hcfg
      injection hcfg with h
      subst h
      simp [hurl]

/-- Witness for C8: a complete environment yields the configuration with the
default base URL; an environment with an empty key secret makes startup fail
with exit code 1. -/
theorem loadConfig_fail_fast_witness :
    (Config.mk defaultApiUrl "vc_pk_abc123def456" "sk_secret" none).apiUrl = defaultApiUrl
    ∧ loadConfig Fix.envEmptyKey = .error 1 :=
  ⟨(loadConfig_fail_fast Fix.envOk).2.2 (by decide)
      (Config.mk defaultApiUrl "vc_pk_abc123def456" "sk_secret" none) (by rfl),
   (loadConfig_fail_fast Fix.envEmptyKey).1.mpr (Or.inr (Or.inr (Or.inr (by decide))))⟩

/-! ## Proxy forwarder -/

/-- Shared description of a proxy call whose inbound body step succeeded with
Python value `j`: exactly one upstream request is issued, and an upstream
success is relayed verbatim. -/
theorem proxy_forward_eq (cfg : Config) (upstream : OutboundRequest → UpstreamResult)
    (api_path : String) (req : InboundRequest) (j : Json)
    (hg : (if req.is_json then req.getJson else Except.ok Json.null) = Except.ok j) :
    (vanitycert_proxy cfg upstream api_path req).2
        = [forwardedRequest cfg api_path req.method (pyToJsonArg j)]
    ∧ (∀ st body, upstream (forwardedRequest cfg api_path req.method (pyToJsonArg j))
          = .response st (.ok body) →
        (vanitycert_proxy cfg upstream api_path req).1 = ⟨st, body⟩) := by
  constructor
  · simp only [vanitycert_proxy, vanitycert_proxy_try, hg]
    cases hu : upstream (forwardedRequest cfg api_path req.method (pyToJsonArg j)) with
    | raised msg => simp
    | response st r =>
        cases r with
        | error e => cases e <;> simp
        | ok body => simp
  · intro st body hu
    simp only [vanitycert_proxy, vanitycert_proxy_try, hg, hu]

/-- Case analysis of the proxy handler by the outcome of its `try:` body. -/
theorem vanitycert_proxy_cases (cfg : Config) (upstream : OutboundRequest → UpstreamResult)
    (api_path : String) (req : InboundRequest) :
    (∃ resp tr, vanitycert_proxy_try cfg upstream api_path req = (.ok resp, tr)
        ∧ vanitycert_proxy cfg upstream api_path req = (resp, tr))
    ∨ (∃ msg tr, vanitycert_proxy_try cfg upstream api_path req
          = (.error (.requestException msg), tr)
        ∧ vanitycert_proxy cfg upstream api_path req = (⟨500, proxyErrorBody⟩, tr))
    ∨ (∃ e tr, vanitycert_proxy_try cfg upstream api_path req = (.error e, tr)
        ∧ (∀ msg, e ≠ .requestException msg)
        ∧ vanitycert_proxy cfg upstream api_path req = (⟨500, internalErrorBody⟩, tr)) := by
  rcases htry : vanitycert_proxy_try cfg upstream api_path req with ⟨res, tr⟩
  cases res with
  | ok resp =>
      exact Or.inl ⟨resp, tr, rfl, by simp only [vanitycert_proxy, htry]⟩
  | error e =>
      cases e with
      | requestException msg =>
          exact Or.inr (Or.inl ⟨msg, tr, rfl, by simp only [vanitycert_proxy, htry]⟩)
      | typeError msg =>
          exact Or.inr (Or.inr ⟨.typeError msg, tr, rfl,
            fun m h => PyError.noConfusion h, by simp only [vanitycert_proxy, htry]⟩)
      | attributeError msg =>
          exact Or.inr (Or.inr ⟨.attributeError msg, tr, rfl,
            fun m h => PyError.noConfusion h, by simp only [vanitycert_proxy, htry]⟩)
      | otherError msg =>
          exact Or.inr (Or.inr ⟨.otherError msg, tr, rfl,
            fun m h => PyError.noConfusion h, by simp only [vanitycert_proxy, htry]⟩)

/-- C1 (amended): for every supported method and sub-path, a proxy call whose
inbound body step succeeds issues exactly one upstream request to
`<base>/<path>` with the same method, the four fixed headers and timeout 30,
carrying the inbound JSON value as body — except that a JSON-null inbound
body, like a non-JSON inbound request, is forwarded with no body; in every
one of these cases, on a successful upstream exchange the upstream status and
JSON body are returned to the caller verbatim. -/
theorem proxy_forwarding_transparent_relay (cfg : Config)
    (upstream : OutboundRequest → UpstreamResult) (api_path : String) (req : InboundRequest) :
    (∀ j, req.is_json = true → req.getJson = .ok j → isNull j = false →
      (vanitycert_proxy cfg upstream api_path req).2
          = [forwardedRequest cfg api_path req.method (some j)]
      ∧ (∀ st body, upstream (forwardedRequest cfg api_path req.method (some j))
            = .response st (.ok body) →
          (vanitycert_proxy cfg upstream api_path req).1 = ⟨st, body⟩))
    ∧ (req.is_json = false →
      (vanitycert_proxy cfg upstream api_path req).2
          = [forwardedRequest cfg api_path req.method none]
      ∧ (∀ st body, upstream (forwardedRequest cfg api_path req.method none)
            = .response st (.ok body) →
          (vanitycert_proxy cfg upstream api_path req).1 = ⟨st, body⟩))
    ∧ (req.is_json = true → req.getJson = .ok .null →
      (vanitycert_proxy cfg upstream api_path req).2
          = [forwardedRequest cfg api_path req.method none]
      ∧ (∀ st body, upstream (forwardedRequest cfg api_path req.method none)
            = .response st (.ok body) →
          (vanitycert_proxy cfg upstream api_path req).1 = ⟨st, body⟩))
    ∧ (∀ ob, forwardedRequest cfg api_path req.method ob
        = { method := req.method
            url := cfg.apiUrl ++ "/" ++ api_path
            headers := [("X-API-KEY-ID", cfg.apiKeyId), ("X-API-KEY", cfg.apiKey),
                        ("Content-Type", "application/json"), ("Accept", "application/json")]
            jsonArg := ob
            timeout := 30 }) := by
  refine ⟨?_, ?_, ?_, fun ob => rfl⟩
  · intro j hj hg hnn
    have harg : pyToJsonArg j = some j := by simp [pyToJsonArg, hnn]
    have h := proxy_forward_eq cfg upstream api_path req j (by simp [hj, hg])
    rw [harg] at h
    exact h
  · intro hj
    have h := proxy_forward_eq cfg upstream api_path req .null (by simp [hj])
    rw [show pyToJsonArg .null = none from rfl] at h
    exact h
  · intro hj hg
    have h := proxy_forward_eq cfg upstream api_path req .null (by simp [hj, hg])
    rw [show pyToJsonArg .null = none from rfl] at h
    exact h

/-- Witness for C1: a POST with a JSON body relayed through an upstream that
answers 201. -/
theorem proxy_forwarding_transparent_relay_witness :
    (vanitycert_proxy Fix.cfg Fix.upstreamOk "domains" Fix.postReq).1
        = ⟨201, .obj [("id", .str "dom_1"), ("status", .str "pending")]⟩ :=
  ((proxy_forwarding_transparent_relay Fix.cfg Fix.upstreamOk "domains" Fix.postReq).1
      (.obj [("url", .str "shop.example.com")]) rfl rfl rfl).2 201
      (.obj [("id", .str "dom_1"), ("status", .str "pending")]) rfl

/-- Counterexample for C1 as stated: an inbound POST declaring JSON whose
body is the JSON document `null` is forwarded with no request body
(`requests.request` sends nothing when `json=None`), not with a JSON body
equal to the inbound one. -/
theorem proxy_null_body_not_forwarded :
    ((vanitycert_proxy Fix.cfg Fix.upstreamOk "domains" Fix.nullBodyReq).2.map
        fun o => o.jsonArg) = [none]
    ∧ Fix.nullBodyReq.is_json = true
    ∧ Fix.nullBodyReq.getJson = Except.ok Json.null
    ∧ (none : Option Json) ≠ some Json.null :=
  ⟨rfl, rfl, rfl, fun h => Option.noConfusion h⟩

/-- C2: the proxy's error surface is exactly two fixed shapes — every raised
`requests.exceptions.RequestException` yields the fixed `proxy_error` 500
response, every other exception the fixed `internal_error` 500 response, and
every non-error outcome is the relayed upstream response. -/
theorem proxy_error_surface (cfg : Config) (upstream : OutboundRequest → UpstreamResult)
    (api_path : String) (req : InboundRequest) :
    ((vanitycert_proxy cfg upstream api_path req).1 = ⟨500, proxyErrorBody⟩
     ∨ (vanitycert_proxy cfg upstream api_path req).1 = ⟨500, internalErrorBody⟩
     ∨ (∃ resp, (vanitycert_proxy_try cfg upstream api_path req).1 = .ok resp
         ∧ (vanitycert_proxy cfg upstream api_path req).1 = resp))
    ∧ (∀ msg tr, vanitycert_proxy_try cfg upstream api_path req
          = (.error (.requestException msg), tr) →
        vanitycert_proxy cfg upstream api_path req = (⟨500, proxyErrorBody⟩, tr))
    ∧ (∀ e tr, vanitycert_proxy_try cfg upstream api_path req = (.error e, tr) →
        (∀ msg, e ≠ .requestException msg) →
        vanitycert_proxy cfg upstream api_path req = (⟨500, internalErrorBody⟩, tr)) := by
  refine ⟨?_, ?_, ?_⟩
  · rcases vanitycert_proxy_cases cfg upstream api_path req with
      ⟨resp, tr, h1, h2⟩ | ⟨msg, tr, h1, h2⟩ | ⟨e, tr, h1, hne, h2⟩
    · exact Or.inr (Or.inr ⟨resp, by rw [h1], by rw [h2]⟩)
    · exact Or.inl (by rw [h2])
    · exact Or.inr (Or.inl (by rw [h2]))
  · intro msg tr h
    simp only [vanitycert_proxy, h]
  · intro e tr h hne
    cases e with
    | requestException msg => exact absurd rfl (hne msg)
    | typeError msg => simp only [vanitycert_proxy, h]
    | attributeError msg => simp only [vanitycert_proxy, h]
    | otherError msg => simp only [vanitycert_proxy, h]

/-- Witness for C2: an unreachable upstream makes a GET return the fixed
`proxy_error` 500 response. -/
theorem proxy_error_surface_witness :
    vanitycert_proxy Fix.cfg Fix.upstreamDown "domains/dom_1" Fix.getReq
        = (⟨500, proxyErrorBody⟩, [forwardedRequest Fix.cfg "domains/dom_1" .GET none]) :=
  (proxy_error_surface Fix.cfg Fix.upstreamDown "domains/dom_1" Fix.getReq).2.1
    "ConnectionError: connection refused" [forwardedRequest Fix.cfg "domains/dom_1" .GET none] rfl

/-! ## Webhook receiver -/

theorem hexChar_ascii (n : Nat) : (hexChar n).toNat < 128 := by
  by_cases h : n < 16
  · unfold hexChar hexDigits
    interval_cases n <;> decide
  · have h16 : hexDigits.length = 16 := by decide
    have hlen : hexDigits.length ≤ n := by omega
    unfold hexChar
    rw [List.getD_eq_default _ _ hlen]
    decide

theorem asciiOnly_hexOfBytes (bytes : List Nat) : asciiOnly (hexOfBytes bytes) = true := by
  unfold asciiOnly hexOfBytes
  rw [List.all_eq_true]
  intro c hc
  rcases List.mem_flatMap.mp hc with ⟨b, _, hcb⟩
  rcases List.mem_cons.mp hcb with h | h
  · subst h; exact decide_eq_true (hexChar_ascii _)
  · rcases List.mem_singleton.mp h with rfl
    exact decide_eq_true (hexChar_ascii _)

theorem toList_string_append (s t : String) : (s ++ t).toList = s.toList ++ t.toList := by
  cases s
  cases t
  rfl

/-- The computed `sha256=<hex>` signature string is always ASCII-only. -/
theorem asciiOnly_expected (s : String) (payload : List Nat) :
    asciiOnly (expected_signature s payload) = true := by
  unfold expected_signature asciiOnly
  rw [List.all_eq_true]
  intro c hc
  rw [toList_string_append, List.mem_append] at hc
  rcases hc with h | h
  · have : ∀ d ∈ "sha256=".toList, decide (d.toNat < 128) = true := by decide
    exact this c h
  · have h2 := asciiOnly_hexOfBytes (hmacSha256 (utf8 s) payload)
    unfold asciiOnly at h2
    exact List.all_eq_true.mp h2 c h

theorem dictGet_obj (fields : List (String × Json)) (k : String) :
    dictGet (.obj fields) k = .ok ((fields.lookup k).getD .null) := by
  cases h : fields.lookup k <;> simp [dictGet, h]

/-- `process_webhook` never raises on a dict event: some branch always
produces a dispatch. -/
theorem process_webhook_obj (fields : List (String × Json)) :
    ∃ act, process_webhook (.obj fields) = .ok act := by
  unfold process_webhook
  simp only [dictGet_obj]
  split
  · exact ⟨_, rfl⟩
  · split
    · exact ⟨_, rfl⟩
    · split
      · exact ⟨_, rfl⟩
      · exact ⟨_, rfl⟩

/-- On a dict event the parse/dispatch tail always acknowledges with 200. -/
theorem webhookBody_obj (req : WebhookRequest) (fields : List (String × Json))
    (hg : req.getJson = .ok (.obj fields)) :
    ∃ act, webhookBody req = .ok (⟨200, statusOkBody⟩, act) := by
  obtain ⟨act, hact⟩ := process_webhook_obj fields
  refine ⟨act, ?_⟩
  unfold webhookBody
  simp only [hg, dictGet_obj, hact]

/-- Whenever the parse/dispatch tail returns normally, the response is the
200 acknowledgment. -/
theorem webhookBody_resp (req : WebhookRequest) (resp : HttpResponse) (act : LogAction)
    (h : webhookBody req = .ok (resp, act)) : resp = ⟨200, statusOkBody⟩ := by
  unfold webhookBody at h
  repeat' split at h
  all_goals first
    | exact Except.noConfusion h
    | (injection h with h2; exact (congrArg Prod.fst h2).symm)

/-- The handler when signature verification is skipped (no truthy secret). -/
theorem webhook_skip (secret : Option String) (req : WebhookRequest)
    (hsec : envTruthy secret = false) :
    vanitycert_webhook secret req =
      match webhookBody req with
      | .error _ => (⟨500, webhookFailBody⟩, none)
      | .ok (resp, act) => (resp, some act) := by
  cases hb : webhookBody req with
  | error e => simp [vanitycert_webhook, vanitycert_webhook_try, hsec, hb]
  | ok pa =>
      obtain ⟨resp, act⟩ := pa
      simp [vanitycert_webhook, vanitycert_webhook_try, hsec, hb]

/-- The handler when signature verification runs and passes. -/
theorem webhook_pass (secret : Option String) (req : WebhookRequest)
    (hsec : envTruthy secret = true)
    (hcd : compare_digest req.signatureHeader
        (expected_signature (secret.getD "") req.rawBody) = .ok true) :
    vanitycert_webhook secret req =
      match webhookBody req with
      | .error _ => (⟨500, webhookFailBody⟩, none)
      | .ok (resp, act) => (resp, some act) := by
  cases hb : webhookBody req with
  | error e => simp [vanitycert_webhook, vanitycert_webhook_try, hsec, hcd, hb]
  | ok pa =>
      obtain ⟨resp, act⟩ := pa
      simp [vanitycert_webhook, vanitycert_webhook_try, hsec, hcd, hb]

/-- A normally returned dispatch can only come from the parse/dispatch
tail. -/
theorem webhook_try_some (secret : Option String) (req : WebhookRequest)
    (resp : HttpResponse) (act : LogAction)
    (h : vanitycert_webhook_try secret req = .ok (resp, some act)) :
    webhookBody req = .ok (resp, act) := by
  unfold vanitycert_webhook_try at h
  by_cases hsec : envTruthy secret = true
  · rw [if_pos hsec] at h
    cases hcd : compare_digest req.signatureHeader
        (expected_signature (secret.getD "") req.rawBody) with
    | error e => simp [hcd] at h
    | ok b =>
        cases b
        · simp [hcd] at h
        · simp only [hcd] at h
          cases hb : webhookBody req with
          | error e => simp [hb] at h
          | ok pa =>
              obtain ⟨r2, a2⟩ := pa
              simp only [hb] at h
              injection h with h2
              have hr := congrArg Prod.fst h2
              have ha := congrArg Prod.snd h2
              simp only at hr ha
              injection ha with ha2
              rw [hr, ha2]
  · rw [if_neg hsec] at h
    cases hb : webhookBody req with
    | error e => simp [hb] at h
    | ok pa =>
        obtain ⟨r2, a2⟩ := pa
        simp only [hb] at h
        injection h with h2
        have hr := congrArg Prod.fst h2
        have ha := congrArg Prod.snd h2
        simp only at hr ha
        injection ha with ha2
        rw [hr, ha2]

/-- C3 (amended): with a configured secret, a signature header equal to
`sha256=` + hex(HMAC-SHA256(secret, raw body)) passes verification (the
handler behaves exactly as with verification skipped), and any other ASCII
header value is rejected with exactly HTTP 401 and the fixed
`Invalid signature` body, with no dispatch; a header value containing
non-ASCII characters instead makes `hmac.compare_digest` raise `TypeError`,
which surfaces as the generic 500 processing-failure response. -/
theorem webhook_signature_verification (s : String) (req : WebhookRequest) (hs : s ≠ "") :
    (req.signatureHeader = some (expected_signature s req.rawBody) →
      vanitycert_webhook (some s) req = vanitycert_webhook none req)
    ∧ (∀ sig, req.signatureHeader = some sig → asciiOnly sig = true →
        sig ≠ expected_signature s req.rawBody →
        vanitycert_webhook (some s) req = (⟨401, invalidSignatureBody⟩, none))
    ∧ (∀ sig, req.signatureHeader = some sig → asciiOnly sig = false →
        vanitycert_webhook (some s) req = (⟨500, webhookFailBody⟩, none)) := by
  have hTrue : envTruthy (some s) = true := by simp [envTruthy, hs]
  have hexp := asciiOnly_expected s req.rawBody
  refine ⟨?_, ?_, ?_⟩
  · intro hsig
    have hcd : compare_digest req.signatureHeader
        (expected_signature ((some s).getD "") req.rawBody) = .ok true := by
      rw [hsig]
      simp [compare_digest, hexp]
    rw [webhook_pass (some s) req hTrue hcd, webhook_skip none req rfl]
  · intro sig hsig hascii hne
    have hcd : compare_digest req.signatureHeader
        (expected_signature s req.rawBody) = .ok false := by
      rw [hsig]
      simp [compare_digest, hascii, hexp, hne]
    simp [vanitycert_webhook, vanitycert_webhook_try, hTrue, hcd]
  · intro sig hsig hascii
    have hcd : compare_digest req.signatureHeader
        (expected_signature s req.rawBody)
        = .error (.typeError "comparing strings with non-ASCII characters is not supported") := by
      rw [hsig]
      simp [compare_digest, hascii]
    simp [vanitycert_webhook, vanitycert_webhook_try, hTrue, hcd]

/-- Witness for C3: a correctly signed issuance event passes verification and
is acknowledged with 200. -/
theorem webhook_signature_verification_witness :
    vanitycert_webhook (some Fix.whSecret) Fix.whReqSigned
        = vanitycert_webhook none Fix.whReqSigned
    ∧ (vanitycert_webhook none Fix.whReqSigned).1.status = 200 :=
  ⟨(webhook_signature_verification Fix.whSecret Fix.whReqSigned (by decide)).1 rfl, rfl⟩

/-- Counterexample for C3 as stated: a signature header containing a
non-ASCII character differs from the expected signature, yet the caller does
not receive the 401 rejection — `hmac.compare_digest` raises `TypeError` on
non-ASCII strings and the handler answers with the generic 500 response. -/
theorem webhook_nonascii_signature_not_401 :
    vanitycert_webhook (some Fix.whSecret) Fix.whReqNonAscii = (⟨500, webhookFailBody⟩, none)
    ∧ Fix.whReqNonAscii.signatureHeader
        ≠ some (expected_signature Fix.whSecret Fix.whReqNonAscii.rawBody)
    ∧ (500 : Nat) ≠ 401 := by
  refine ⟨rfl, ?_, by decide⟩
  intro h
  have hexp := asciiOnly_expected Fix.whSecret Fix.whReqNonAscii.rawBody
  have h2 : ("sha256=ÿ" : String)
      = expected_signature Fix.whSecret Fix.whReqNonAscii.rawBody := by
    injection h
  rw [← h2] at hexp
  exact absurd hexp (by decide)

/-- C4: with a configured secret and no signature header, the handler does
not produce the 401 rejection — the `None` header reaches
`hmac.compare_digest`, the `TypeError` is caught by the catch-all clause, and
the caller receives 500 with the fixed processing-failure body. -/
theorem webhook_missing_signature_header (s : String) (req : WebhookRequest) (hs : s ≠ "")
    (hh : req.signatureHeader = none) :
    vanitycert_webhook (some s) req = (⟨500, webhookFailBody⟩, none)
    ∧ (∃ msg, vanitycert_webhook_try (some s) req = .error (.typeError msg))
    ∧ (vanitycert_webhook (some s) req).1.status ≠ 401 := by
  have hTrue : envTruthy (some s) = true := by simp [envTruthy, hs]
  have htry : vanitycert_webhook_try (some s) req
      = .error (.typeError "unsupported operand types") := by
    simp only [vanitycert_webhook_try, hTrue, if_true, hh, compare_digest]
  refine ⟨?_, ⟨_, htry⟩, ?_⟩
  · simp only [vanitycert_webhook, htry]
  · simp only [vanitycert_webhook, htry]
    decide

/-- Witness for C4: the concrete signed-route request without the header gets
the 500 processing-failure response. -/
theorem webhook_missing_signature_header_witness :
    vanitycert_webhook (some Fix.whSecret) Fix.whReqNoHeader = (⟨500, webhookFailBody⟩, none) :=
  (webhook_missing_signature_header Fix.whSecret Fix.whReqNoHeader (by decide) rfl).1

/-- C5 (amended): with no truthy webhook secret configured, verification is
skipped — every POST whose body parses to a JSON object reaches event
dispatch and is acknowledged with 200, and the response is independent of the
presence or value of the signature header; a well-formed but non-object JSON
body instead raises inside the handler and yields the generic 500. -/
theorem webhook_no_secret_reaches_dispatch (secret : Option String) (req : WebhookRequest)
    (hsec : envTruthy secret = false) :
    (∀ fields, req.getJson = .ok (.obj fields) →
      ∃ act, vanitycert_webhook secret req = (⟨200, statusOkBody⟩, some act))
    ∧ (∀ sig, vanitycert_webhook secret { req with signatureHeader := sig }
        = vanitycert_webhook secret req) := by
  constructor
  · intro fields hg
    obtain ⟨act, hb⟩ := webhookBody_obj req fields hg
    exact ⟨act, by rw [webhook_skip secret req hsec, hb]⟩
  · intro sig
    rw [webhook_skip secret _ hsec, webhook_skip secret req hsec]
    rfl


/-- Witness for C5: an unknown-tag event without a secret is acknowledged
identically whether or not a (bogus) signature header is present. -/
theorem webhook_no_secret_reaches_dispatch_witness :
    vanitycert_webhook none { Fix.whReqUnknown with signatureHeader := some "sha256=bogus" }
      = vanitycert_webhook none Fix.whReqUnknown :=
  (webhook_no_secret_reaches_dispatch none Fix.whReqUnknown rfl).2 (some "sha256=bogus")

/-- Counterexample for C5 as stated: the body `5` is well-formed JSON, yet
with no secret configured the request never reaches dispatch — `event.get`
raises `AttributeError` on the parsed integer and the handler answers 500. -/
theorem webhook_nonobject_json_no_dispatch :
    (vanitycert_webhook none Fix.whReqNum).2 = none
    ∧ (vanitycert_webhook none Fix.whReqNum).1 = ⟨500, webhookFailBody⟩
    ∧ (500 : Nat) ≠ 200 :=
  ⟨rfl, rfl, by decide⟩

/-- C6: dispatch never changes the response shape — whenever
`process_webhook` runs, the handler responds 200 with the fixed
acknowledgment body; `process_webhook` succeeds on every dict event, and an
event tag other than the three recognized values falls through to the no-op
default branch. -/
theorem webhook_dispatch_constant_response (secret : Option String) (req : WebhookRequest) :
    (∀ act, (vanitycert_webhook secret req).2 = some act →
        (vanitycert_webhook secret req).1 = ⟨200, statusOkBody⟩)
    ∧ (∀ fields, ∃ act, process_webhook (.obj fields) = .ok act)
    ∧ (∀ fields tag, (fields.lookup "event").getD .null = tag →
        isStr tag "certificate.issued" = false →
        isStr tag "certificate.validation_failed" = false →
        isStr tag "certificate.renewal_failed" = false →
        process_webhook (.obj fields) = .ok (.unhandled tag)) := by
  refine ⟨?_, process_webhook_obj, ?_⟩
  · intro act h
    cases htry : vanitycert_webhook_try secret req with
    | error e =>
        simp only [vanitycert_webhook, htry] at h
        exact absurd h (by simp)
    | ok pa =>
        obtain ⟨resp, oact⟩ := pa
        simp only [vanitycert_webhook, htry] at h ⊢
        subst h
        exact webhookBody_resp req resp act (webhook_try_some secret req resp act htry)
  · intro fields tag htag h1 h2 h3
    subst htag
    unfold process_webhook
    simp only [dictGet_obj, h1, h2, h3, Bool.false_eq_true, if_false]

/-- Witness for C6: the unknown-tag event is dispatched to the default branch
and still acknowledged with 200. -/
theorem webhook_dispatch_constant_response_witness :
    (vanitycert_webhook none Fix.whReqUnknown).1 = ⟨200, statusOkBody⟩ :=
  (webhook_dispatch_constant_response none Fix.whReqUnknown).1
    (.unhandled (.str "unknown.tag")) rfl

end VanityCert
